import Mathlib

/- Shallow embedding of src/crypto_bot.py, a menu-driven Telegram crypto
   price bot.  JSON values decoded from API responses are modelled by a
   small inductive type (numbers as integers: no claim depends on numeric
   precision); Python dictionaries are modelled by association lists kept
   in insertion order; the HTTP layer is modelled by environments that give
   the outcome of each outbound request.  Handlers that can raise a Python
   exception return `Except String`, the error being the exception text. -/

/-- JSON-like values decoded from API responses. -/
inductive Json where
  | str : String → Json
  | num : Int → Json
  | arr : List Json → Json
  | obj : List (String × Json) → Json

/-- Python `str()` of a decoded JSON value, as interpolated by the bot's
f-strings.  Responses rendered by the bot contain only scalar fields, so
the rendering of nested containers is abstracted to a size tag. -/
def pyStr : Json → String
  | .str s => s
  | .num n => toString n
  | .arr l => "<list of " ++ toString l.length ++ ">"
  | .obj kvs => "<dict of " ++ toString kvs.length ++ ">"

/-- Python `str.upper()` (ASCII, which covers every string the bot uppercases). -/
def pyUpper (s : String) : String := String.mk (s.data.map Char.toUpper)

/-- Python `str.capitalize()`: first character uppercased, the rest lowercased. -/
def pyCapitalize (s : String) : String :=
  match s.data with
  | [] => ""
  | c :: cs => String.mk (Char.toUpper c :: cs.map Char.toLower)

/-- Boolean test that the first list of characters starts the second one. -/
def isPrefixList : List Char → List Char → Bool
  | [], _ => true
  | _ :: _, [] => false
  | p :: ps, s :: ss => if p = s then isPrefixList ps ss else false

/-- Python `str.startswith`. -/
def pyStartsWith (s pre : String) : Bool := isPrefixList pre.data s.data

/-- Helper for `pySplit`: accumulates the current field (reversed). -/
def pySplitAux (sep : Char) : List Char → List Char → List String
  | [], acc => [String.mk acc.reverse]
  | c :: cs, acc =>
    if c = sep then String.mk acc.reverse :: pySplitAux sep cs []
    else pySplitAux sep cs (c :: acc)

/-- Python `str.split(sep)` for a one-character separator, no maxsplit. -/
def pySplit (s : String) (sep : Char) : List String := pySplitAux sep s.data []

/-- `query.data.split(':')[1]` (src/crypto_bot.py lines 165 and 169); `none`
models the IndexError raised when there is no second field. -/
def decodePayload (data : String) : Option String := (pySplit data ':').get? 1

/-- The `crypto:<id>` callback payload encoding (src/crypto_bot.py line 100). -/
def cryptoCallback (cid : String) : String := "crypto:" ++ cid

/-- The `currency:<code>` callback payload encoding (src/crypto_bot.py line 135). -/
def currencyCallback (c : String) : String := "currency:" ++ c

/-- Python `dict.get(k)` on the per-conversation `user_data` mapping. -/
def dictGet : List (String × String) → String → Option String
  | [], _ => none
  | p :: d, k => if p.1 = k then some p.2 else dictGet d k

/-- Python `dict.get(k, default)`. -/
def dictGetD (d : List (String × String)) (k v0 : String) : String :=
  (dictGet d k).getD v0

/-- Python `k in dict`. -/
def dictHasKey : List (String × String) → String → Bool
  | [], _ => false
  | p :: d, k => if p.1 = k then true else dictHasKey d k

/-- Python `dict[k] = v`: overwrite in place, or append a fresh key. -/
def dictSet (d : List (String × String)) (k v : String) : List (String × String) :=
  if dictHasKey d k then d.map (fun p => if p.1 = k then (k, v) else p)
  else d ++ [(k, v)]

/-- Lookup in a decoded JSON object (Python `dict.get` on a response). -/
def jfind : List (String × Json) → String → Option Json
  | [], _ => none
  | p :: kvs, k => if p.1 = k then some p.2 else jfind kvs k

/-- Outcome of one attempt of `requests.get` + `raise_for_status` + `.json()`:
a decoded value, an HTTPError (transient, retried), or any other exception
(connectivity failure, malformed body; aborts the loop). -/
inductive AttemptResult where
  | success : Json → AttemptResult
  | httpError : AttemptResult
  | otherError : AttemptResult

/-- The `for attempt in range(5)` retry loop of `make_api_request`
(src/crypto_bot.py lines 29-39): `i` is the index of the next attempt,
the second argument the number of attempts left. -/
def apiLoop (env : Nat → AttemptResult) : Nat → Nat → Option Json
  | _, 0 => none
  | i, fuel + 1 =>
    match env i with
    | .success v => some v
    | .httpError => apiLoop env (i + 1) fuel
    | .otherError => none

/-- `make_api_request` (src/crypto_bot.py lines 28-40): `env i` is the outcome
the HTTP layer would give to attempt number `i`. -/
def make_api_request (env : Nat → AttemptResult) : Option Json :=
  apiLoop env 0 5

/-- The query-parameter dictionary built by `get_crypto_details`
(src/crypto_bot.py line 56), in source order. -/
def get_crypto_details_params (crypto_id currency : String) : List (String × String) :=
  [("ids", crypto_id), ("vs_currencies", currency),
   ("include_24hr_change", "true"), ("include_market_cap", "true")]

/-- An inline keyboard button: display text plus callback payload. -/
structure Button where
  text : String
  callback_data : String
deriving DecidableEq

/-- The trailing "Back to Main Menu" row's button (src/crypto_bot.py line 103). -/
def backButton : Button := ⟨"Back to Main Menu", "main_menu"⟩

/-- Python `len(x)` on a fetch result (`none` models Python `None`). -/
def pyLenOpt : Option Json → Except String Nat
  | none => .error "TypeError: object of type NoneType has no len()"
  | some (.arr l) => .ok l.length
  | some (.obj kvs) => .ok kvs.length
  | some (.str s) => .ok s.data.length
  | some (.num _) => .error "TypeError: object of type int has no len()"

/-- Python `x[i:j]` on a fetch result: lists and strings slice, anything else
raises TypeError (in particular a dict, as the trending response is). -/
def pySliceOpt : Option Json → Nat → Nat → Except String (List Json)
  | some (.arr l), i, j => .ok ((l.take j).drop i)
  | some (.str s), i, j => .ok (((s.data.take j).drop i).map (fun c => .str (String.mk [c])))
  | _, _, _ => .error "TypeError: unhashable type: slice"

/-- One loop body of `show_crypto_list` (src/crypto_bot.py lines 96-100):
`crypto.get(...)` requires a dict and `.upper()` requires a string. -/
def buttonOfCrypto (c : Json) : Except String Button :=
  match c with
  | .obj kvs =>
    let name := (jfind kvs "name").getD (.str "Unknown")
    let symbol := (jfind kvs "symbol").getD (.str "Unknown")
    let cid := (jfind kvs "id").getD (.str "unknown")
    match symbol with
    | .str s => .ok ⟨pyStr name ++ " (" ++ pyUpper s ++ ")", cryptoCallback (pyStr cid)⟩
    | _ => .error "AttributeError: upper"
  | _ => .error "AttributeError: get"

/-- Total version of `buttonOfCrypto` on well-formed asset records; agrees
with it whenever `isAssetRecord` holds. -/
def assetButton (c : Json) : Button :=
  match c with
  | .obj kvs =>
    let name := (jfind kvs "name").getD (.str "Unknown")
    let symbol := (jfind kvs "symbol").getD (.str "Unknown")
    let cid := (jfind kvs "id").getD (.str "unknown")
    ⟨pyStr name ++ " (" ++ pyUpper (pyStr symbol) ++ ")", cryptoCallback (pyStr cid)⟩
  | _ => ⟨"", ""⟩

/-- An asset record: a dict whose `symbol` field (after defaulting) is a
string, which is all `show_crypto_list` needs to not raise on it. -/
def isAssetRecord : Json → Bool
  | .obj kvs =>
    match (jfind kvs "symbol").getD (.str "Unknown") with
    | .str _ => true
    | _ => false
  | _ => false

/-- The inner `for crypto in cryptos[i:i+2]` loop building one keyboard row. -/
def buttonsOfChunk : List Json → Except String (List Button)
  | [] => .ok []
  | c :: cs =>
    match buttonOfCrypto c with
    | .error e => .error e
    | .ok b =>
      match buttonsOfChunk cs with
      | .error e => .error e
      | .ok bs => .ok (b :: bs)

/-- The outer `for i in range(0, len(cryptos), 2)` loop of `show_crypto_list`,
over the list of start indices. -/
def buildRows (cryptos : Option Json) : List Nat → Except String (List (List Button))
  | [] => .ok []
  | i :: is =>
    match pySliceOpt cryptos i (i + 2) with
    | .error e => .error e
    | .ok chunk =>
      match buttonsOfChunk chunk with
      | .error e => .error e
      | .ok row =>
        match buildRows cryptos is with
        | .error e => .error e
        | .ok rows => .ok (row :: rows)

/-- `show_crypto_list` (src/crypto_bot.py lines 92-105): builds the keyboard
it attaches to the message (rows of assets plus the trailing back row). -/
def show_crypto_list (cryptos : Option Json) : Except String (List (List Button)) :=
  match pyLenOpt cryptos with
  | .error e => .error e
  | .ok n =>
    match buildRows cryptos ((List.range ((n + 1) / 2)).map (fun k => 2 * k)) with
    | .error e => .error e
    | .ok rows => .ok (rows ++ [[backButton]])

/-- Reference chunking: the list cut into consecutive pieces of two. -/
def chunks2 : List Json → List (List Json)
  | [] => []
  | [a] => [[a]]
  | a :: b :: rest => [a, b] :: chunks2 rest

/-- `details.get(key, 'N/A')` as interpolated into the quote message
(src/crypto_bot.py lines 110-113). -/
def quoteField (kvs : List (String × Json)) (k : String) : String :=
  match jfind kvs k with
  | some v => pyStr v
  | none => "N/A"

/-- The quote message built by `show_crypto_details`
(src/crypto_bot.py lines 115-121). -/
def quoteMessage (kvs : List (String × Json)) (crypto_id currency : String) : String :=
  "💰 " ++ pyCapitalize crypto_id ++ " (" ++ pyUpper currency ++ ")\n" ++
  "Price: " ++ quoteField kvs currency ++ " " ++ pyUpper currency ++ "\n" ++
  "24h Change: " ++ quoteField kvs (currency ++ "_24h_change") ++ "%\n" ++
  "Market Cap: " ++ quoteField kvs (currency ++ "_market_cap") ++ " " ++ pyUpper currency ++ "\n" ++
  "24h Trading Volume: " ++ quoteField kvs (currency ++ "_24h_vol") ++ " " ++ pyUpper currency ++ "\n\n"

/-- Python truthiness of a decoded JSON value. -/
def jsonTruthy : Json → Bool
  | .str s => !s.data.isEmpty
  | .num n => n ≠ 0
  | .arr l => !l.isEmpty
  | .obj kvs => !kvs.isEmpty

/-- Python truthiness of a fetch result (`if details:`). -/
def pyTruthy : Option Json → Bool
  | none => false
  | some j => jsonTruthy j

/-- The Compare / Main Menu / Quit keyboard offered under a rendered quote
(src/crypto_bot.py lines 124-128). -/
def detailsKeyboard : List (List Button) :=
  [[⟨"Compare with another Cryptocurrency", "compare_selection"⟩],
   [⟨"Main Menu", "main_menu"⟩],
   [⟨"Quit", "quit"⟩]]

/-- The messages (text plus attached keyboard) emitted by `show_crypto_details`
(src/crypto_bot.py lines 107-132) once the fetch result `det` is known;
`.error` models the AttributeError raised when a truthy non-dict response is
subscripted with `.get`. -/
def show_crypto_details_renders (det : Option Json) (crypto_id currency : String) :
    Except String (List (String × List (List Button))) :=
  if pyTruthy det then
    match det with
    | some (.obj kvs) =>
      .ok [(quoteMessage kvs crypto_id currency, []),
           ("Select an option:", detailsKeyboard)]
    | _ => .error "AttributeError: get"
  else
    .ok [("🚫 Unable to retrieve cryptocurrency details.", [])]

/-- The conversation states (src/crypto_bot.py line 22: `range(5)`). -/
def MAIN_MENU : Nat := 0

/-- `CHOOSING_CRYPTO` conversation state. -/
def CHOOSING_CRYPTO : Nat := 1

/-- `CHOOSING_CURRENCY` conversation state. -/
def CHOOSING_CURRENCY : Nat := 2

/-- `TYPING_SEARCH` conversation state. -/
def TYPING_SEARCH : Nat := 3

/-- `COMPARE_SELECTION` conversation state. -/
def COMPARE_SELECTION : Nat := 4

/-- The supported unit currencies (src/crypto_bot.py line 25). -/
def SUPPORTED_CURRENCIES : List String :=
  ["usd", "eur", "gbp", "jpy", "aud", "cad", "chf", "cny", "inr"]

/-- The main-menu keyboard (src/crypto_bot.py lines 78-83). -/
def mainMenuKeyboard : List (List Button) :=
  [[⟨"Top 100 Cryptocurrencies", "top100"⟩],
   [⟨"Trending Cryptocurrencies", "trending"⟩],
   [⟨"Search Cryptocurrency", "search"⟩],
   [⟨"Quit", "quit"⟩]]

/-- The main-menu message as `button_click` shows it (default text). -/
def mainMenuRender : String × List (List Button) :=
  ("Welcome to the Crypto Price Bot! What would you like to do?", mainMenuKeyboard)

/-- The currency-choice keyboard (src/crypto_bot.py lines 134-139). -/
def currencyKeyboard : List (List Button) :=
  (SUPPORTED_CURRENCIES.map (fun c => [⟨pyUpper c, currencyCallback c⟩])) ++
    [[backButton]]

/-- The currency-choice message of `show_currency_options`. -/
def currencyOptionsRender : String × List (List Button) :=
  ("Choose a currency:", currencyKeyboard)

/-- An outbound fetch performed while handling one event. -/
inductive FetchCall where
  | top100 : FetchCall
  | trending : FetchCall
  | details : String → String → FetchCall
deriving DecidableEq

/-- Results the HTTP layer would hand to each of the bot's three fetch
helpers during one event (already decoded; `none` is Unavailable). -/
structure FetchEnv where
  top : Option Json
  trending : Option Json
  details : String → String → Option Json

/-- Everything observable of one `button_click` invocation: the conversation
state it returns (`none` models the bare `return`, which leaves the
conversation state unchanged), the per-conversation `user_data` afterwards,
the fetches performed, and the messages rendered with their keyboards. -/
structure ClickResult where
  newState : Option Nat
  user_data : List (String × String)
  fetched : List FetchCall
  renders : List (String × List (List Button))
deriving DecidableEq

/-- `button_click` (src/crypto_bot.py lines 141-186), branch for branch in
source order; `.error` models an uncaught Python exception. -/
def button_click (data : String) (ud : List (String × String)) (env : FetchEnv) :
    Except String ClickResult :=
  if data = "main_menu" then
    .ok ⟨some MAIN_MENU, ud, [], [mainMenuRender]⟩
  else if data = "top100" then
    match show_crypto_list env.top with
    | .error e => .error e
    | .ok kb => .ok ⟨some CHOOSING_CRYPTO, ud, [.top100],
        [("Fetching top cryptocurrencies, please wait...", []),
         ("Top 100 Cryptocurrencies:", kb)]⟩
  else if data = "quit" then
    .ok ⟨some MAIN_MENU, ud, [],
      [("You can return to the main menu anytime by using /start.", [])]⟩
  else if data = "trending" then
    match show_crypto_list env.trending with
    | .error e => .error e
    | .ok kb => .ok ⟨some CHOOSING_CRYPTO, ud, [.trending],
        [("Fetching trending cryptocurrencies, please wait...", []),
         ("Trending Cryptocurrencies:", kb)]⟩
  else if data = "search" then
    .ok ⟨some TYPING_SEARCH, ud, [],
      [("Please enter the name of the cryptocurrency you want to check:", [])]⟩
  else if pyStartsWith data "crypto:" then
    match decodePayload data with
    | none => .error "IndexError: list index out of range"
    | some cid =>
      .ok ⟨some CHOOSING_CURRENCY, dictSet ud "crypto" cid, [], [currencyOptionsRender]⟩
  else if pyStartsWith data "currency:" then
    match decodePayload data with
    | none => .error "IndexError: list index out of range"
    | some currency =>
      let crypto_id := dictGetD ud "crypto" "bitcoin"
      match show_crypto_details_renders (env.details crypto_id currency) crypto_id currency with
      | .error e => .error e
      | .ok rs => .ok ⟨some COMPARE_SELECTION, ud, [.details crypto_id currency], rs⟩
  else if data = "compare_selection" then
    match dictGet ud "crypto" with
    | none => .ok ⟨none, ud, [], [("Please select a cryptocurrency before comparing.", [])]⟩
    | some crypto_id =>
      if crypto_id = "" then
        .ok ⟨none, ud, [], [("Please select a cryptocurrency before comparing.", [])]⟩
      else
        match show_crypto_list env.top with
        | .error e => .error e
        | .ok kb => .ok ⟨some CHOOSING_CURRENCY, ud, [.top100],
            [("Fetching top 100 currencies for comparison, please wait...", []),
             ("Compare " ++ crypto_id ++ " with another currency:", kb)]⟩
  else
    .ok ⟨some MAIN_MENU, ud, [],
      [("Invalid selection. Returning to main menu.", []), mainMenuRender]⟩

/-- Sequential handling of a list of callback events for one conversation:
the state is kept when the handler returns `None` or raises (the transport
swallows handler exceptions and the conversation state is left as it was). -/
def runEvents (env : FetchEnv) : List String → Nat × List (String × String) → Nat × List (String × String)
  | [], st => st
  | e :: es, st =>
    match button_click e st.2 env with
    | .ok r => runEvents env es (r.newState.getD st.1, r.user_data)
    | .error _ => runEvents env es st

/-- An environment in which every fetch is Unavailable. -/
def env0 : FetchEnv := ⟨none, none, fun _ _ => none⟩

/-- A concrete markets-list record. -/
def btcRec : Json := .obj [("name", .str "Bitcoin"), ("symbol", .str "btc"), ("id", .str "bitcoin")]

/-- A concrete markets-list record. -/
def ethRec : Json := .obj [("name", .str "Ethereum"), ("symbol", .str "eth"), ("id", .str "ethereum")]

/-- A concrete markets-list record. -/
def solRec : Json := .obj [("name", .str "Solana"), ("symbol", .str "sol"), ("id", .str "solana")]

/-- An environment whose top-100 fetch decodes to two asset records. -/
def envTop2 : FetchEnv := ⟨some (.arr [btcRec, ethRec]), none, fun _ _ => none⟩

/-- The keyboard `show_crypto_list` builds from `envTop2.top`. -/
def kbTop2 : List (List Button) :=
  [[⟨"Bitcoin (BTC)", "crypto:bitcoin"⟩, ⟨"Ethereum (ETH)", "crypto:ethereum"⟩],
   [backButton]]

/-- An environment whose quote fetch decodes to a one-field price record. -/
def envC3 : FetchEnv := ⟨none, none, fun _ _ => some (.obj [("usd", .num 5)])⟩

/-- The renders `show_crypto_details` emits for `envC3`'s quote record. -/
def rsC3 : List (String × List (List Button)) :=
  [(quoteMessage [("usd", Json.num 5)] "bitcoin" "usd", []),
   ("Select an option:", detailsKeyboard)]

/-- A trending-search response of the documented shape:
an object holding a `coins` list of `item` wrappers. -/
def trendingResponse : Json :=
  .obj [("coins", .arr [.obj [("item",
    .obj [("id", .str "bitcoin"), ("name", .str "Bitcoin"), ("symbol", .str "btc")])]])]

/-- An environment whose trending fetch decodes to `trendingResponse`. -/
def envTrending : FetchEnv := ⟨none, some trendingResponse, fun _ _ => none⟩

/-- An attempt environment: four transient HTTP errors, then success. -/
def envW : Nat → AttemptResult :=
  fun i => if i < 4 then .httpError else .success (.str "ok")

/-- The result `button_click` produces for the `quit` payload. -/
def rQuitResult : ClickResult :=
  ⟨some MAIN_MENU, [("a", "b")], [],
   [("You can return to the main menu anytime by using /start.", [])]⟩

/-- One step of the retry loop: a decoded response returns immediately. -/
theorem apiLoop_success {env : Nat → AttemptResult} {i fuel : Nat} {v : Json}
    (h : env i = .success v) : apiLoop env i (fuel + 1) = some v := by
  simp [apiLoop, h]

/-- One step of the retry loop: a transient HTTP error waits and retries. -/
theorem apiLoop_http {env : Nat → AttemptResult} {i fuel : Nat}
    (h : env i = .httpError) : apiLoop env i (fuel + 1) = apiLoop env (i + 1) fuel := by
  simp [apiLoop, h]

/-- One step of the retry loop: any other error breaks out of the loop. -/
theorem apiLoop_other {env : Nat → AttemptResult} {i fuel : Nat}
    (h : env i = .otherError) : apiLoop env i (fuel + 1) = none := by
  simp [apiLoop, h]

/-- Claim C1: for every call to `make_api_request`, 4 transient (HTTP-level)
failures followed by a success return the decoded result of the 5th attempt;
5 transient failures return Unavailable (`none`); a non-transient failure at
any attempt returns Unavailable immediately, whatever the later attempts
would have produced; a success at any attempt returns its result
immediately.  The return type `Option Json` itself is the contract that a
caller only ever observes a decoded result or Unavailable. -/
theorem claim_C1 (env : Nat → AttemptResult) (v : Json) :
    ((∀ i, i < 4 → env i = .httpError) → env 4 = .success v → make_api_request env = some v) ∧
    ((∀ i, i < 5 → env i = .httpError) → make_api_request env = none) ∧
    (∀ k, k < 5 → (∀ i, i < k → env i = .httpError) → env k = .otherError →
      make_api_request env = none) ∧
    (∀ k, k < 5 → (∀ i, i < k → env i = .httpError) → env k = .success v →
      make_api_request env = some v) := by
  refine ⟨?_, ?_, ?_, ?_⟩
  · intro h4 h5
    rw [show make_api_request env = apiLoop env 0 5 from rfl,
      apiLoop_http (h4 0 (by omega)), apiLoop_http (h4 1 (by omega)),
      apiLoop_http (h4 2 (by omega)), apiLoop_http (h4 3 (by omega)),
      apiLoop_success h5]
  · intro h5
    rw [show make_api_request env = apiLoop env 0 5 from rfl,
      apiLoop_http (h5 0 (by omega)), apiLoop_http (h5 1 (by omega)),
      apiLoop_http (h5 2 (by omega)), apiLoop_http (h5 3 (by omega)),
      apiLoop_http (h5 4 (by omega))]
    rfl
  · intro k hk hpre hko
    interval_cases k
    · rw [show make_api_request env = apiLoop env 0 5 from rfl, apiLoop_other hko]
    · rw [show make_api_request env = apiLoop env 0 5 from rfl,
        apiLoop_http (hpre 0 (by omega)), apiLoop_other hko]
    · rw [show make_api_request env = apiLoop env 0 5 from rfl,
        apiLoop_http (hpre 0 (by omega)), apiLoop_http (hpre 1 (by omega)),
        apiLoop_other hko]
    · rw [show make_api_request env = apiLoop env 0 5 from rfl,
        apiLoop_http (hpre 0 (by omega)), apiLoop_http (hpre 1 (by omega)),
        apiLoop_http (hpre 2 (by omega)), apiLoop_other hko]
    · rw [show make_api_request env = apiLoop env 0 5 from rfl,
        apiLoop_http (hpre 0 (by omega)), apiLoop_http (hpre 1 (by omega)),
        apiLoop_http (hpre 2 (by omega)), apiLoop_http (hpre 3 (by omega)),
        apiLoop_other hko]
  · intro k hk hpre hks
    interval_cases k
    · rw [show make_api_request env = apiLoop env 0 5 from rfl, apiLoop_success hks]
    · rw [show make_api_request env = apiLoop env 0 5 from rfl,
        apiLoop_http (hpre 0 (by omega)), apiLoop_success hks]
    · rw [show make_api_request env = apiLoop env 0 5 from rfl,
        apiLoop_http (hpre 0 (by omega)), apiLoop_http (hpre 1 (by omega)),
        apiLoop_success hks]
    · rw [show make_api_request env = apiLoop env 0 5 from rfl,
        apiLoop_http (hpre 0 (by omega)), apiLoop_http (hpre 1 (by omega)),
        apiLoop_http (hpre 2 (by omega)), apiLoop_success hks]
    · rw [show make_api_request env = apiLoop env 0 5 from rfl,
        apiLoop_http (hpre 0 (by omega)), apiLoop_http (hpre 1 (by omega)),
        apiLoop_http (hpre 2 (by omega)), apiLoop_http (hpre 3 (by omega)),
        apiLoop_success hks]

/-- Witness for C1: four transient failures then a success return the
decoded result of the fifth attempt. -/
theorem claim_C1_witness : make_api_request envW = some (Json.str "ok") :=
  (claim_C1 envW (Json.str "ok")).1
    (by intro i hi; interval_cases i <;> rfl) rfl

/-- Claim C4 (code bug): `get_crypto_details` sends only the include-24h-change
and include-market-cap flags; no include-24h-volume flag is in the request it
builds, although `show_crypto_details` goes on to display a 24h-volume field,
so the volume that the response could carry is never requested. -/
theorem claim_C4 :
    (get_crypto_details_params "bitcoin" "usd").map Prod.fst =
      ["ids", "vs_currencies", "include_24hr_change", "include_market_cap"] ∧
    (∀ p ∈ get_crypto_details_params "bitcoin" "usd", p.1 ≠ "include_24hr_vol") ∧
    dictGet (get_crypto_details_params "bitcoin" "usd") "include_24hr_change" = some "true" ∧
    dictGet (get_crypto_details_params "bitcoin" "usd") "include_market_cap" = some "true" := by
  refine ⟨rfl, ?_, rfl, rfl⟩
  decide

/-- Claim C6 (code bug): on a trending-search response of the documented
shape (an object with a `coins` list), `button_click` on the `trending`
payload passes the raw object to `show_crypto_list`, which takes its length
(1, the number of keys) and then slices it like a list, raising TypeError:
no asset options are rendered and no state is returned, where the claim
expects one option per trending asset and a transition to CHOOSING_CRYPTO. -/
theorem claim_C6 :
    button_click "trending" [] envTrending = .error "TypeError: unhashable type: slice" ∧
    show_crypto_list (some trendingResponse) = .error "TypeError: unhashable type: slice" :=
  ⟨rfl, rfl⟩

/-- Fields of `pySplitAux` behaviour: a separator-free tail closes the
current field. -/
theorem pySplitAux_no_sep (sep : Char) :
    ∀ cs acc, (∀ c ∈ cs, c ≠ sep) → pySplitAux sep cs acc = [String.mk (acc.reverse ++ cs)] := by
  intro cs
  induction cs with
  | nil => intro acc _; simp [pySplitAux]
  | cons c cs ih =>
    intro acc h
    have hc : c ≠ sep := h c (by simp)
    simp only [pySplitAux, if_neg hc]
    rw [ih (c :: acc) (fun x hx => h x (by simp [hx]))]
    simp

/-- Claim C9 counterexample: the callback round trip is not the identity on
every asset id — for the id `a:b` the decoder recovers only `a`, because
`split(':')[1]` keeps one field of the split. -/
theorem claim_C9_counterexample :
    decodePayload (cryptoCallback "a:b") = some "a" ∧
    decodePayload (cryptoCallback "a:b") ≠ some "a:b" := by
  constructor
  · rfl
  · decide

/-- Claim C9 (amended: asset ids that do not contain `:` — which includes
every id the quote API issues — round-trip; so do all supported currency
codes): decoding the payload built by the `crypto:<id>` / `currency:<code>`
encodings recovers the original identifier. -/
theorem claim_C9 (cid : String) (hc : ':' ∉ cid.data) :
    decodePayload (cryptoCallback cid) = some cid ∧
    (∀ c ∈ SUPPORTED_CURRENCIES, decodePayload (currencyCallback c) = some c) := by
  constructor
  · have hdata : (cryptoCallback cid).data = 'c' :: 'r' :: 'y' :: 'p' :: 't' :: 'o' :: ':' :: cid.data := by
      cases cid with
      | mk l => rfl
    have hrest : ∀ c ∈ cid.data, c ≠ ':' := by
      intro c hmem
      intro h
      exact hc (h ▸ hmem)
    rw [decodePayload, pySplit, hdata]
    simp only [pySplitAux, if_neg (by decide : ¬ ('c' = ':')), if_neg (by decide : ¬ ('r' = ':')),
      if_neg (by decide : ¬ ('y' = ':')), if_neg (by decide : ¬ ('p' = ':')),
      if_neg (by decide : ¬ ('t' = ':')), if_neg (by decide : ¬ ('o' = ':')),
      if_pos (rfl : (':' : Char) = ':')]
    rw [pySplitAux_no_sep ':' cid.data [] hrest]
    simp
  · decide

/-- Witness for C9: the id `bitcoin` round-trips through the encoding. -/
theorem claim_C9_witness : decodePayload (cryptoCallback "bitcoin") = some "bitcoin" :=
  (claim_C9 "bitcoin" (by decide)).1

/-- Two-at-a-time induction, matching how the list renderer consumes its input. -/
theorem twoStepInduction {motive : List Json → Prop} (h0 : motive [])
    (h1 : ∀ a, motive [a])
    (h2 : ∀ a b rest, motive rest → motive (a :: b :: rest)) : ∀ l, motive l
  | [] => h0
  | [a] => h1 a
  | a :: b :: rest => h2 a b rest (twoStepInduction h0 h1 h2 rest)

/-- On an asset record, the loop body decodes to the total button builder. -/
theorem buttonOfCrypto_ok (c : Json) (h : isAssetRecord c = true) :
    buttonOfCrypto c = .ok (assetButton c) := by
  cases c with
  | str s => simp [isAssetRecord] at h
  | num n => simp [isAssetRecord] at h
  | arr l => simp [isAssetRecord] at h
  | obj kvs =>
    simp only [buttonOfCrypto, assetButton]
    cases hsym : (jfind kvs "symbol").getD (.str "Unknown") with
    | str s => simp [hsym, pyStr]
    | num n => simp [isAssetRecord, hsym] at h
    | arr l => simp [isAssetRecord, hsym] at h
    | obj o => simp [isAssetRecord, hsym] at h

/-- On a chunk of asset records, the row builder succeeds with the mapped buttons. -/
theorem buttonsOfChunk_ok (l : List Json) (h : ∀ c ∈ l, isAssetRecord c = true) :
    buttonsOfChunk l = .ok (l.map assetButton) := by
  induction l with
  | nil => rfl
  | cons c cs ih =>
    simp only [buttonsOfChunk, buttonOfCrypto_ok c (h c (by simp)),
      ih (fun x hx => h x (by simp [hx])), List.map_cons]

/-- Python list slicing `l[i:i+2]` is "drop `i`, take 2". -/
theorem pySlice_arr (l : List Json) (i : Nat) :
    pySliceOpt (some (.arr l)) i (i + 2) = .ok ((l.drop i).take 2) := by
  simp only [pySliceOpt]
  rw [← List.take_drop i 2 l]

/-- Shifting every start index by two skips the first two records. -/
theorem buildRows_shift (a b : Json) (rest : List Json) (is : List Nat) :
    buildRows (some (.arr (a :: b :: rest))) (is.map (fun i => i + 2)) =
      buildRows (some (.arr rest)) is := by
  induction is with
  | nil => rfl
  | cons i is ih =>
    simp only [List.map_cons, buildRows, pySlice_arr, List.drop_succ_cons, ih]

/-- The renderer's index loop over a list of asset records produces exactly
the two-chunks of the list, mapped to buttons. -/
theorem buildRows_chunks (l : List Json) (h : ∀ c ∈ l, isAssetRecord c = true) :
    buildRows (some (.arr l)) ((List.range ((l.length + 1) / 2)).map (fun k => 2 * k)) =
      .ok ((chunks2 l).map (fun ch => ch.map assetButton)) := by
  induction l using twoStepInduction with
  | h0 => rfl
  | h1 a =>
    simp only [List.length_singleton]
    rw [show ((1 + 1) / 2 : Nat) = 1 from rfl]
    rw [show List.range 1 = [0] from rfl]
    simp only [List.map_cons, List.map_nil, buildRows, pySlice_arr, List.drop_zero]
    rw [buttonsOfChunk_ok _ (by intro c hc; exact h c (by simpa using hc))]
    rfl
  | h2 a b rest ih =>
    have hlen : ((a :: b :: rest).length + 1) / 2 = (rest.length + 1) / 2 + 1 := by
      simp only [List.length_cons]; omega
    rw [hlen, List.range_succ_eq_map]
    simp only [List.map_cons, Nat.mul_zero, List.map_map]
    have hfun : ((fun k => 2 * k) ∘ Nat.succ) = (fun i => i + 2) ∘ (fun k => 2 * k) := by
      funext k; simp [Function.comp]; omega
    rw [hfun, ← List.map_map]
    simp only [buildRows, pySlice_arr, List.drop_zero]
    rw [buildRows_shift]
    rw [buttonsOfChunk_ok ((( a :: b :: rest).take 2))
      (by intro c hc; exact h c (List.mem_of_mem_take hc))]
    rw [ih (fun c hc => h c (by simp [hc]))]
    rfl

/-- The number of two-chunks is the rounded-up half. -/
theorem chunks2_length : ∀ l : List Json, (chunks2 l).length = (l.length + 1) / 2 := by
  refine twoStepInduction (by simp [chunks2]) (fun a => by simp [chunks2]) ?_
  intro a b rest ih
  simp only [chunks2, List.length_cons, ih]
  omega

/-- Every two-chunk holds at most two records. -/
theorem chunks2_le2 : ∀ l : List Json, ∀ r ∈ chunks2 l, r.length ≤ 2 := by
  refine twoStepInduction ?_ ?_ ?_
  · intro r hr; simp [chunks2] at hr
  · intro a r hr; simp [chunks2] at hr; simp [hr]
  · intro a b rest ih r hr
    simp only [chunks2, List.mem_cons] at hr
    rcases hr with hr | hr
    · simp [hr]
    · exact ih r hr

/-- Concatenating the two-chunks recovers the list: order is preserved. -/
theorem chunks2_flatten : ∀ l : List Json, (chunks2 l).flatten = l := by
  refine twoStepInduction (by simp [chunks2]) (fun a => by simp [chunks2]) ?_
  intro a b rest ih
  simp [chunks2, ih]

/-- Claim C5: rendering a list of N asset records yields ceil(N/2) rows of at
most two selectable buttons each, in input order (concatenating the rows maps
the records in order), followed by exactly one trailing "Back to Main Menu"
row. -/
theorem claim_C5 (l : List Json) (h : ∀ c ∈ l, isAssetRecord c = true) :
    show_crypto_list (some (Json.arr l)) =
      .ok ((chunks2 l).map (fun ch => ch.map assetButton) ++ [[backButton]]) ∧
    ((chunks2 l).map (fun ch => ch.map assetButton)).length = (l.length + 1) / 2 ∧
    (∀ row ∈ (chunks2 l).map (fun ch => ch.map assetButton), row.length ≤ 2) ∧
    ((chunks2 l).map (fun ch => ch.map assetButton)).flatten = l.map assetButton := by
  refine ⟨?_, ?_, ?_, ?_⟩
  · simp only [show_crypto_list, pyLenOpt]
    rw [buildRows_chunks l h]
  · simp [chunks2_length]
  · intro row hrow
    simp only [List.mem_map] at hrow
    obtain ⟨ch, hch, rfl⟩ := hrow
    simpa using chunks2_le2 l ch hch
  · conv_rhs => rw [← chunks2_flatten l]
    rw [List.map_flatten]

/-- Witness for C5: three records render as two asset rows (of 2 and 1
buttons) plus the back row. -/
theorem claim_C5_witness :
    show_crypto_list (some (Json.arr [btcRec, ethRec, solRec])) =
      .ok ((chunks2 [btcRec, ethRec, solRec]).map (fun ch => ch.map assetButton) ++
        [[backButton]]) :=
  (claim_C5 [btcRec, ethRec, solRec] (by decide)).1

/-- Appending strings appends their character data. -/
theorem strDataAppend (a b : String) : (a ++ b).data = a.data ++ b.data := rfl

/-- A segment of a concatenation is an infix of it. -/
theorem strInfixOf (t pre post m : String)
    (h : m.data = pre.data ++ (t.data ++ post.data)) : t.data <:+: m.data :=
  ⟨pre.data, post.data, by rw [h]; simp [List.append_assoc]⟩

/-- An absent response field renders as the not-available marker. -/
theorem quoteField_absent (kvs : List (String × Json)) (k : String)
    (h : jfind kvs k = none) : quoteField kvs k = "N/A" := by
  simp [quoteField, h]

/-- A present response field renders as its value. -/
theorem quoteField_present (kvs : List (String × Json)) (k : String) (v : Json)
    (h : jfind kvs k = some v) : quoteField kvs k = pyStr v := by
  simp [quoteField, h]

/-- Claim C7 counterexample: the empty quote response is a record with no
market-cap field, yet the renderer takes the falsy branch and emits the
unavailable notice — no field values and no `N/A` marker appear, so the
claim fails on it as universally stated. -/
theorem claim_C7_counterexample :
    jfind [] ("usd" ++ "_market_cap") = none ∧
    show_crypto_details_renders (some (.obj [])) "bitcoin" "usd" =
      .ok [("🚫 Unable to retrieve cryptocurrency details.", [])] ∧
    ¬ (("N/A" : String).data <:+: ("🚫 Unable to retrieve cryptocurrency details." : String).data) := by
  refine ⟨rfl, rfl, ?_⟩
  decide

/-- Claim C7 (amended: for every nonempty quote response record): when the
market-cap field is absent the renderer still succeeds (never raises), keeps
every present field's rendered value verbatim in the message, and shows the
not-available marker for market cap. -/
theorem claim_C7 (kvs : List (String × Json)) (cid cur : String)
    (hne : kvs ≠ [])
    (hmc : jfind kvs (cur ++ "_market_cap") = none) :
    show_crypto_details_renders (some (.obj kvs)) cid cur =
      .ok [(quoteMessage kvs cid cur, []), ("Select an option:", detailsKeyboard)] ∧
    ("Market Cap: N/A" : String).data <:+: (quoteMessage kvs cid cur).data ∧
    (∀ k v, k ∈ [cur, cur ++ "_24h_change", cur ++ "_24h_vol"] → jfind kvs k = some v →
      (pyStr v).data <:+: (quoteMessage kvs cid cur).data) := by
  have hmcf : quoteField kvs (cur ++ "_market_cap") = "N/A" := quoteField_absent kvs _ hmc
  have mcLit : ("Market Cap: N/A" : String).data =
      ("Market Cap: " : String).data ++ ("N/A" : String).data := rfl
  refine ⟨?_, ?_, ?_⟩
  · cases kvs with
    | nil => exact absurd rfl hne
    | cons p ps => simp [show_crypto_details_renders, pyTruthy, jsonTruthy]
  · apply strInfixOf _
      ("💰 " ++ pyCapitalize cid ++ " (" ++ pyUpper cur ++ ")\n" ++
       "Price: " ++ quoteField kvs cur ++ " " ++ pyUpper cur ++ "\n" ++
       "24h Change: " ++ quoteField kvs (cur ++ "_24h_change") ++ "%\n")
      (" " ++ pyUpper cur ++ "\n" ++
       "24h Trading Volume: " ++ quoteField kvs (cur ++ "_24h_vol") ++ " " ++ pyUpper cur ++ "\n\n")
    simp [quoteMessage, strDataAppend, hmcf, mcLit, List.append_assoc]
  · intro k v hk hfind
    simp only [List.mem_cons, List.not_mem_nil, or_false] at hk
    rcases hk with rfl | rfl | rfl
    · have hq : quoteField kvs k = pyStr v := quoteField_present kvs k v hfind
      apply strInfixOf _
        ("💰 " ++ pyCapitalize cid ++ " (" ++ pyUpper k ++ ")\n" ++ "Price: ")
        (" " ++ pyUpper k ++ "\n" ++
         "24h Change: " ++ quoteField kvs (k ++ "_24h_change") ++ "%\n" ++
         "Market Cap: " ++ quoteField kvs (k ++ "_market_cap") ++ " " ++ pyUpper k ++ "\n" ++
         "24h Trading Volume: " ++ quoteField kvs (k ++ "_24h_vol") ++ " " ++ pyUpper k ++ "\n\n")
      simp [quoteMessage, strDataAppend, hq, List.append_assoc]
    · have hq : quoteField kvs (cur ++ "_24h_change") = pyStr v :=
        quoteField_present kvs _ v hfind
      apply strInfixOf _
        ("💰 " ++ pyCapitalize cid ++ " (" ++ pyUpper cur ++ ")\n" ++
         "Price: " ++ quoteField kvs cur ++ " " ++ pyUpper cur ++ "\n" ++ "24h Change: ")
        ("%\n" ++
         "Market Cap: " ++ quoteField kvs (cur ++ "_market_cap") ++ " " ++ pyUpper cur ++ "\n" ++
         "24h Trading Volume: " ++ quoteField kvs (cur ++ "_24h_vol") ++ " " ++ pyUpper cur ++ "\n\n")
      simp [quoteMessage, strDataAppend, hq, List.append_assoc]
    · have hq : quoteField kvs (cur ++ "_24h_vol") = pyStr v :=
        quoteField_present kvs _ v hfind
      apply strInfixOf _
        ("💰 " ++ pyCapitalize cid ++ " (" ++ pyUpper cur ++ ")\n" ++
         "Price: " ++ quoteField kvs cur ++ " " ++ pyUpper cur ++ "\n" ++
         "24h Change: " ++ quoteField kvs (cur ++ "_24h_change") ++ "%\n" ++
         "Market Cap: " ++ quoteField kvs (cur ++ "_market_cap") ++ " " ++ pyUpper cur ++ "\n" ++
         "24h Trading Volume: ")
        (" " ++ pyUpper cur ++ "\n\n")
      simp [quoteMessage, strDataAppend, hq, List.append_assoc]

/-- Witness for C7: a concrete record with price and change but no market
cap renders with the not-available marker for market cap. -/
theorem claim_C7_witness :
    ("Market Cap: N/A" : String).data <:+:
      (quoteMessage [("usd", Json.num 5), ("usd_24h_change", Json.num 2)] "bitcoin" "usd").data :=
  (claim_C7 [("usd", Json.num 5), ("usd_24h_change", Json.num 2)] "bitcoin" "usd"
    (List.cons_ne_nil _ _) rfl).2.1

/-- Dispatch: the `compare_selection` payload reaches the compare branch. -/
theorem button_click_compareBranch (ud : List (String × String)) (env : FetchEnv) :
    button_click "compare_selection" ud env =
      (match dictGet ud "crypto" with
       | none => .ok ⟨none, ud, [], [("Please select a cryptocurrency before comparing.", [])]⟩
       | some crypto_id =>
         if crypto_id = "" then
           .ok ⟨none, ud, [], [("Please select a cryptocurrency before comparing.", [])]⟩
         else
           match show_crypto_list env.top with
           | .error e => .error e
           | .ok kb => .ok ⟨some CHOOSING_CURRENCY, ud, [.top100],
               [("Fetching top 100 currencies for comparison, please wait...", []),
                ("Compare " ++ crypto_id ++ " with another currency:", kb)]⟩) := rfl

/-- Dispatch: a payload of the shape `currency:...` reaches the currency branch. -/
theorem button_click_currencyBranch (l : List Char) (ud : List (String × String)) (env : FetchEnv) :
    button_click ⟨("currency:" : String).data ++ l⟩ ud env =
      (match decodePayload ⟨("currency:" : String).data ++ l⟩ with
       | none => .error "IndexError: list index out of range"
       | some currency =>
         match show_crypto_details_renders
             (env.details (dictGetD ud "crypto" "bitcoin") currency)
             (dictGetD ud "crypto" "bitcoin") currency with
         | .error e => .error e
         | .ok rs => .ok ⟨some COMPARE_SELECTION, ud,
             [.details (dictGetD ud "crypto" "bitcoin") currency], rs⟩) := rfl

/-- A successful prefix test exhibits the rest of the list. -/
theorem isPrefixList_exists (p : List Char) : ∀ s, isPrefixList p s = true → ∃ t, s = p ++ t := by
  induction p with
  | nil => intro s _; exact ⟨s, rfl⟩
  | cons a ps ih =>
    intro s h
    cases s with
    | nil => simp [isPrefixList] at h
    | cons b ss =>
      by_cases hab : a = b
      · subst hab
        obtain ⟨t, ht⟩ := ih ss (by simpa [isPrefixList] using h)
        exact ⟨t, by simp [ht]⟩
      · simp [isPrefixList, hab] at h

/-- Claim C2 counterexample: with an asset stored, the Compare selection
returns the CHOOSING_CURRENCY state, not the claimed ChoosingAsset
(CHOOSING_CRYPTO) state, while still fetching and rendering the top-N asset
list. -/
theorem claim_C2_counterexample :
    button_click "compare_selection" [("crypto", "bitcoin")] envTop2 =
      .ok ⟨some CHOOSING_CURRENCY, [("crypto", "bitcoin")], [FetchCall.top100],
        [("Fetching top 100 currencies for comparison, please wait...", []),
         ("Compare bitcoin with another currency:", kbTop2)]⟩ ∧
    some CHOOSING_CURRENCY ≠ some CHOOSING_CRYPTO := by
  exact ⟨rfl, by decide⟩

/-- Claim C2 (amended: with an asset stored the handler performs a fresh
top-N fetch but transitions to CHOOSING_CURRENCY, not CHOOSING_CRYPTO):
with no asset stored (key absent or empty, both falsy in the source's
`if not crypto_id`) the guard message is shown, nothing is fetched, the
selection context is untouched and the handler returns no state (`none`
models the bare `return`, which leaves the conversation state unchanged);
with a non-empty asset stored and a decodable top-N response, the top-N
fetch happens and the handler moves to CHOOSING_CURRENCY. -/
theorem claim_C2 (ud : List (String × String)) (env : FetchEnv) (s : String)
    (kb : List (List Button)) :
    ((dictGet ud "crypto" = none ∨ dictGet ud "crypto" = some "") →
      button_click "compare_selection" ud env =
        .ok ⟨none, ud, [], [("Please select a cryptocurrency before comparing.", [])]⟩) ∧
    (dictGet ud "crypto" = some s → s ≠ "" → show_crypto_list env.top = .ok kb →
      button_click "compare_selection" ud env =
        .ok ⟨some CHOOSING_CURRENCY, ud, [FetchCall.top100],
          [("Fetching top 100 currencies for comparison, please wait...", []),
           ("Compare " ++ s ++ " with another currency:", kb)]⟩) := by
  constructor
  · intro h
    rw [button_click_compareBranch]
    rcases h with h | h <;> rw [h]
    rfl
  · intro hs hne htop
    rw [button_click_compareBranch, hs]
    simp only [if_neg hne, htop]

/-- Witness for C2: the guard fires on an empty selection context, and a
stored asset leads to the top-N fetch and the CHOOSING_CURRENCY state. -/
theorem claim_C2_witness :
    button_click "compare_selection" [] env0 =
      .ok ⟨none, [], [], [("Please select a cryptocurrency before comparing.", [])]⟩ ∧
    button_click "compare_selection" [("crypto", "bitcoin")] envTop2 =
      .ok ⟨some CHOOSING_CURRENCY, [("crypto", "bitcoin")], [FetchCall.top100],
        [("Fetching top 100 currencies for comparison, please wait...", []),
         ("Compare " ++ "bitcoin" ++ " with another currency:", kbTop2)]⟩ :=
  ⟨(claim_C2 [] env0 "x" []).1 (Or.inl rfl),
   (claim_C2 [("crypto", "bitcoin")] envTop2 "bitcoin" kbTop2).2 rfl (by decide) rfl⟩

/-- Claim C3 counterexample: with no asset chosen (empty selection context),
a currency-selection event is not rejected — a quote fetch is performed
(with the default id `bitcoin`), contradicting the claimed guard. -/
theorem claim_C3_counterexample :
    button_click "currency:usd" [] envC3 =
      .ok ⟨some COMPARE_SELECTION, [], [FetchCall.details "bitcoin" "usd"], rsC3⟩ ∧
    [FetchCall.details "bitcoin" "usd"] ≠ ([] : List FetchCall) := by
  exact ⟨rfl, by decide⟩

/-- Claim C3 (amended: the handler does not reject the event; it substitutes
the default asset id `bitcoin`, so the quote fetch is performed but never
with an undefined/missing asset id): for every currency payload decoded to
`c`, with no asset stored, the handler fetches the quote for `bitcoin`/`c`
and moves to COMPARE_SELECTION. -/
theorem claim_C3 (data c : String) (ud : List (String × String)) (env : FetchEnv)
    (rs : List (String × List (List Button)))
    (hdata : pyStartsWith data "currency:" = true)
    (hdec : decodePayload data = some c)
    (hud : dictGet ud "crypto" = none)
    (hr : show_crypto_details_renders (env.details "bitcoin" c) "bitcoin" c = .ok rs) :
    button_click data ud env =
      .ok ⟨some COMPARE_SELECTION, ud, [FetchCall.details "bitcoin" c], rs⟩ := by
  have hcid : dictGetD ud "crypto" "bitcoin" = "bitcoin" := by
    simp [dictGetD, hud]
  obtain ⟨l⟩ := data
  obtain ⟨t, ht⟩ := isPrefixList_exists _ _ hdata
  subst ht
  rw [button_click_currencyBranch t ud env]
  rw [hdec]
  simp only [hcid, hr]

/-- Witness for C3: the concrete `currency:usd` event with an unrelated
selection context still fetches `bitcoin`'s quote. -/
theorem claim_C3_witness :
    button_click "currency:usd" [("other", "1")] envC3 =
      .ok ⟨some COMPARE_SELECTION, [("other", "1")],
        [FetchCall.details "bitcoin" "usd"], rsC3⟩ :=
  claim_C3 "currency:usd" "usd" [("other", "1")] envC3 rsC3 rfl rfl rfl rfl

/-- Every state `button_click` can return is one of the five defined states
(or `none`, the bare `return` that keeps the current state). -/
theorem button_click_states (data : String) (ud : List (String × String)) (env : FetchEnv)
    (r : ClickResult) (hok : button_click data ud env = .ok r) :
    r.newState = none ∨ r.newState = some MAIN_MENU ∨ r.newState = some CHOOSING_CRYPTO ∨
      r.newState = some CHOOSING_CURRENCY ∨ r.newState = some TYPING_SEARCH ∨
      r.newState = some COMPARE_SELECTION := by
  unfold button_click at hok
  repeat' (first | split at hok | simp only [] at hok)
  all_goals try exact Except.noConfusion hok
  all_goals (injection hok with h; subst h)
  all_goals simp [MAIN_MENU, CHOOSING_CRYPTO, CHOOSING_CURRENCY, TYPING_SEARCH, COMPARE_SELECTION]

/-- The only write `button_click` ever performs on the conversation context
is storing the decoded asset id under `crypto`, and only in the
`crypto:<id>` branch. -/
theorem button_click_userData (data : String) (ud : List (String × String)) (env : FetchEnv)
    (r : ClickResult) (hok : button_click data ud env = .ok r) :
    (pyStartsWith data "crypto:" = false → r.user_data = ud) ∧
    (pyStartsWith data "crypto:" = true → ∃ v, decodePayload data = some v ∧
      r.user_data = dictSet ud "crypto" v) := by
  unfold button_click at hok
  repeat' (first | split at hok | simp only [] at hok)
  all_goals try exact Except.noConfusion hok
  all_goals (injection hok with h; subst h)
  all_goals constructor
  all_goals intro hc
  all_goals first
    | rfl
    | (exact ⟨_, by assumption, rfl⟩)
    | simp_all [pyStartsWith, isPrefixList]

/-- Claim C8: for every sequence of callback events and every conversation
context, the conversation state after handling them is still one of the five
defined states MAIN_MENU, CHOOSING_CRYPTO, CHOOSING_CURRENCY, TYPING_SEARCH,
COMPARE_SELECTION — the transition function never produces an undefined
state. -/
theorem claim_C8 (env : FetchEnv) (events : List String)
    (st : Nat × List (String × String))
    (h : st.1 ∈ [MAIN_MENU, CHOOSING_CRYPTO, CHOOSING_CURRENCY, TYPING_SEARCH, COMPARE_SELECTION]) :
    (runEvents env events st).1 ∈
      [MAIN_MENU, CHOOSING_CRYPTO, CHOOSING_CURRENCY, TYPING_SEARCH, COMPARE_SELECTION] := by
  induction events generalizing st with
  | nil => exact h
  | cons e es ih =>
    simp only [runEvents]
    cases hok : button_click e st.2 env with
    | error err => exact ih st h
    | ok r =>
      apply ih
      rcases button_click_states e st.2 env r hok with h0 | h1 | h1 | h1 | h1 | h1
      · simpa [h0] using h
      all_goals simp [h1]

/-- Witness for C8: a quit, a search prompt and an unrecognized payload all
keep the conversation inside the five defined states. -/
theorem claim_C8_witness :
    (runEvents env0 ["quit", "search", "nonsense"] (MAIN_MENU, [])).1 ∈
      [MAIN_MENU, CHOOSING_CRYPTO, CHOOSING_CURRENCY, TYPING_SEARCH, COMPARE_SELECTION] :=
  claim_C8 env0 ["quit", "search", "nonsense"] (MAIN_MENU, []) (by decide)

/-- Overwriting the `k` entry of a dict leaves every other key's lookup alone. -/
theorem dictGet_map_overwrite (d : List (String × String)) (k v k' : String) (hne : k' ≠ k) :
    dictGet (d.map (fun p => if p.1 = k then (k, v) else p)) k' = dictGet d k' := by
  induction d with
  | nil => rfl
  | cons p d ih =>
    by_cases hp : p.1 = k
    · have hk' : ¬(k = k') := fun h => hne h.symm
      have hp' : ¬(p.1 = k') := by rw [hp]; exact hk'
      simp only [List.map_cons, if_pos hp, dictGet, if_neg hk', if_neg hp']
      exact ih
    · have hid : (if p.1 = k then (k, v) else p) = p := if_neg hp
      simp only [List.map_cons, hid, dictGet]
      by_cases hpk' : p.1 = k'
      · simp [if_pos hpk']
      · simp only [if_neg hpk']
        exact ih

/-- Appending a fresh `k` entry leaves every other key's lookup alone. -/
theorem dictGet_append_single (d : List (String × String)) (k v k' : String) (hne : k' ≠ k) :
    dictGet (d ++ [(k, v)]) k' = dictGet d k' := by
  induction d with
  | nil =>
    simp [dictGet, if_neg (fun h : k = k' => hne h.symm)]
  | cons p d ih =>
    by_cases hp : p.1 = k'
    · simp [dictGet, if_pos hp]
    · simp only [List.cons_append, dictGet, if_neg hp]
      exact ih

/-- Setting key `k` changes no other key's lookup. -/
theorem dictGet_dictSet_ne (d : List (String × String)) (k v k' : String) (hne : k' ≠ k) :
    dictGet (dictSet d k v) k' = dictGet d k' := by
  unfold dictSet
  split
  · exact dictGet_map_overwrite d k v k' hne
  · exact dictGet_append_single d k v k' hne

/-- Claim C10: across all event handling, the only selection field ever
written is the `crypto` key (overwritten on each asset selection); every
other key of the conversation context — in particular any would-be
`currency` key — is left unchanged, and outside the `crypto:<id>` branch
the context is returned untouched (the chosen currency is only passed as a
parameter to the quote renderer, never stored). -/
theorem claim_C10 (data : String) (ud : List (String × String)) (env : FetchEnv)
    (r : ClickResult) (hok : button_click data ud env = .ok r) :
    (r.user_data = ud ∨ ∃ v, r.user_data = dictSet ud "crypto" v) ∧
    (∀ k, k ≠ "crypto" → dictGet r.user_data k = dictGet ud k) ∧
    (pyStartsWith data "crypto:" = false → r.user_data = ud) := by
  obtain ⟨hno, hyes⟩ := button_click_userData data ud env r hok
  refine ⟨?_, ?_, hno⟩
  · cases hsw : pyStartsWith data "crypto:" with
    | false => exact Or.inl (hno hsw)
    | true =>
      obtain ⟨v, _, hv⟩ := hyes hsw
      exact Or.inr ⟨v, hv⟩
  · intro k hk
    cases hsw : pyStartsWith data "crypto:" with
    | false => rw [hno hsw]
    | true =>
      obtain ⟨v, _, hv⟩ := hyes hsw
      rw [hv, dictGet_dictSet_ne ud "crypto" v k hk]

/-- Witness for C10: handling `quit` leaves the (absent) `currency` entry of
the conversation context unchanged. -/
theorem claim_C10_witness :
    dictGet rQuitResult.user_data "currency" = dictGet [("a", "b")] "currency" :=
  (claim_C10 "quit" [("a", "b")] env0 rQuitResult rfl).2.1 "currency" (by decide)
